import Mathlib

/-!
Shallow embedding of the FRUG frame-composition engine (`src/src/lib.rs`).

Modelling conventions:
* `f32`/`f64` scalar values (positions, colors, texture coordinates) are
  represented by rationals.  No claim treated here depends on floating-point
  rounding: positions appear only as the syntactic expressions of the source
  (`x + w`, `y - h`) and texture coordinates are the exact constants 0 and 1.
* Machine integers are `Nat` with the source's casts made explicit:
  `len() as u16` becomes `% 65536`, `len() as u32` becomes `% 4294967296`.
  `u16`/`u32` additions are reduced modulo the width where they occur
  (release-profile wrapping; in every theorem below whose hypotheses hold the
  sums stay below the width, so debug-profile overflow panics cannot fire
  either).
* GPU handles (surface format, present mode, ...) are opaque `Nat` codes:
  the code never inspects them, it only stores and copies them.
* The GPU buffers created by `create_buffer_init` are modelled by their
  contents (the list of vertices / indices uploaded).
-/

namespace Frug

/-- One vertex: position, texture coordinates, color (`Vertex` in lib.rs). -/
structure Vertex where
  position : ℚ × ℚ × ℚ
  text_coords : ℚ × ℚ
  color : ℚ × ℚ × ℚ
deriving DecidableEq

/-- The `Default` impl for `Vertex`: origin position, zero texture
coordinates, opaque white color. -/
def Vertex.default : Vertex :=
  { position := (0, 0, 0), text_coords := (0, 0), color := (1, 1, 1) }

/-- `DrawableObj` in lib.rs: one draw batch, a contiguous index range plus an
optional texture bind-group index. -/
structure DrawableObj where
  indices_low_pos : Nat
  indices_hi_pos : Nat
  bind_group_idx : Option Nat
deriving DecidableEq

/-- A `wgpu::Color` (r, g, b, a as `f64`, modelled by rationals). -/
structure Color where
  r : ℚ
  g : ℚ
  b : ℚ
  a : ℚ
deriving DecidableEq

/-- `create_color` from lib.rs. -/
def create_color (red green blue alpha : ℚ) : Color :=
  { r := red, g := green, b := blue, a := alpha }

/-- `wgpu::SurfaceConfiguration` as stored in the `config` field.  Fields the
engine never inspects (usage, format, present mode, alpha mode, view formats)
are opaque codes; `resize` rewrites only `width` and `height`. -/
structure SurfaceConfiguration where
  usage : Nat
  format : Nat
  width : Nat
  height : Nat
  present_mode : Nat
  alpha_mode : Nat
  view_formats : List Nat
deriving DecidableEq

/-- The state of a `FrugInstance` relevant to the frame-composition engine:
surface configuration, window size, background color, GPU-resident
vertex/index buffers (modelled by their uploaded contents), staging
vertex/index lists, recorded index count, the texture bind-group table
(modelled by its length: entries are opaque GPU objects identified by their
insertion index), the draw-batch list and the exit flag. -/
structure FrugInstance where
  config : SurfaceConfiguration
  size_width : Nat
  size_height : Nat
  background_color : Color
  vertex_buffer : List Vertex
  index_buffer : List Nat
  staging_vertices : List Vertex
  staging_indices : List Nat
  num_indices : Nat
  diffuse_bind_groups : Nat
  drawable_objects : List DrawableObj
  exit_requested : Bool
deriving DecidableEq

/-- `FrugInstance::new_instance`: empty staging data, empty buffers, black
background, no textures, no batches (lib.rs lines 429-452).  The window size
`w × h` is reported by the windowing collaborator. -/
def new_instance (w h : Nat) : FrugInstance :=
  { config :=
      { usage := 0, format := 0, width := w, height := h
        present_mode := 0, alpha_mode := 0, view_formats := [] }
    size_width := w
    size_height := h
    background_color := { r := 0, g := 0, b := 0, a := 1 }
    vertex_buffer := []
    index_buffer := []
    staging_vertices := []
    staging_indices := []
    num_indices := 0
    diffuse_bind_groups := 0
    drawable_objects := []
    exit_requested := false }

/-- `FrugInstance::resize`: reconfigure the surface only when both dimensions
are positive.  The returned boolean records whether `surface.configure` was
invoked. -/
def resize (s : FrugInstance) (new_w new_h : Nat) : FrugInstance × Bool :=
  if 0 < new_w ∧ 0 < new_h then
    ({ s with
        size_width := new_w
        size_height := new_h
        config := { s.config with width := new_w, height := new_h } }, true)
  else
    (s, false)

/-- `FrugInstance::set_background_color`. -/
def set_background_color (s : FrugInstance) (color : Color) : FrugInstance :=
  { s with background_color := color }

/-- `FrugInstance::update_buffers`: re-create the GPU vertex/index buffers
from the staging contents and record the new index count (`len() as u32`). -/
def update_buffers (s : FrugInstance) : FrugInstance :=
  { s with
      vertex_buffer := s.staging_vertices
      index_buffer := s.staging_indices
      num_indices := s.staging_indices.length % 4294967296 }

/-- `FrugInstance::add_staging_indexed_vertices`: offset each incoming index
by the current staging vertex count cast to `u16`, append the offset indices,
then append the vertices. -/
def add_staging_indexed_vertices (s : FrugInstance)
    (vertices : List Vertex) (indices : List Nat) : FrugInstance :=
  let offset := s.staging_vertices.length % 65536
  { s with
      staging_indices := s.staging_indices ++ indices.map (fun i => (i + offset) % 65536)
      staging_vertices := s.staging_vertices ++ vertices }

/-- `FrugInstance::add_colored_vertices`: push a batch covering the incoming
index range (bounds cast to `u32`), then stage the data. -/
def add_colored_vertices (s : FrugInstance)
    (vertices : List Vertex) (indices : List Nat) : FrugInstance :=
  let low_bound := s.staging_indices.length % 4294967296
  let s1 := { s with
      drawable_objects := s.drawable_objects ++
        [{ indices_low_pos := low_bound
           indices_hi_pos := (low_bound + indices.length % 4294967296) % 4294967296
           bind_group_idx := none }] }
  add_staging_indexed_vertices s1 vertices indices

/-- `FrugInstance::clear`: empty both staging lists. -/
def clear (s : FrugInstance) : FrugInstance :=
  { s with staging_vertices := [], staging_indices := [] }

/-- The four vertices built inline by `add_tex_rect` (lib.rs lines 678-717):
the texture-coordinate base rectangle is left=0, right=1, top=0, bottom=1;
`flip_x` swaps left/right and `flip_y` swaps top/bottom before assignment.
Vertex order: top-left, bottom-left, bottom-right, top-right. -/
def texRectVertices (x y w h : ℚ) (flip_x flip_y : Bool) : List Vertex :=
  let tcLeft : ℚ := if flip_x then 1 else 0
  let tcRight : ℚ := if flip_x then 0 else 1
  let tcTop : ℚ := if flip_y then 1 else 0
  let tcBottom : ℚ := if flip_y then 0 else 1
  [ { position := (x, y, 0), text_coords := (tcLeft, tcTop), color := (1, 1, 1) },
    { position := (x, y - h, 0), text_coords := (tcLeft, tcBottom), color := (1, 1, 1) },
    { position := (x + w, y - h, 0), text_coords := (tcRight, tcBottom), color := (1, 1, 1) },
    { position := (x + w, y, 0), text_coords := (tcRight, tcTop), color := (1, 1, 1) } ]

/-- `FrugInstance::add_tex_rect`: push a textured batch spanning six indices,
then stage the quad with indices `[0, 1, 3, 1, 2, 3]`. -/
def add_tex_rect (s : FrugInstance) (x y w h : ℚ)
    (texture_index : Nat) (flip_x flip_y : Bool) : FrugInstance :=
  let low_bound := s.staging_indices.length % 4294967296
  let s1 := { s with
      drawable_objects := s.drawable_objects ++
        [{ indices_low_pos := low_bound
           indices_hi_pos := (low_bound + 6) % 4294967296
           bind_group_idx := some texture_index }] }
  add_staging_indexed_vertices s1 (texRectVertices x y w h flip_x flip_y) [0, 1, 3, 1, 2, 3]

/-- The four vertices built inline by `add_colored_rect` (lib.rs lines
738-760): top-left, bottom-left, bottom-right, top-right, all with the given
color and default texture coordinates. -/
def coloredRectVertices (x y w h : ℚ) (color : ℚ × ℚ × ℚ) : List Vertex :=
  [ { position := (x, y, 0), text_coords := (0, 0), color := color },
    { position := (x, y - h, 0), text_coords := (0, 0), color := color },
    { position := (x + w, y - h, 0), text_coords := (0, 0), color := color },
    { position := (x + w, y, 0), text_coords := (0, 0), color := color } ]

/-- `FrugInstance::add_colored_rect`: push a colored batch spanning six
indices, then stage the quad with indices `[0, 1, 3, 1, 2, 3]`. -/
def add_colored_rect (s : FrugInstance) (x y w h : ℚ) (color : ℚ × ℚ × ℚ) :
    FrugInstance :=
  let low_bound := s.staging_indices.length % 4294967296
  let s1 := { s with
      drawable_objects := s.drawable_objects ++
        [{ indices_low_pos := low_bound
           indices_hi_pos := (low_bound + 6) % 4294967296
           bind_group_idx := none }] }
  add_staging_indexed_vertices s1 (coloredRectVertices x y w h color) [0, 1, 3, 1, 2, 3]

/-- Outcome of decoding the image bytes handed to `load_texture`.  Modelled
from the spec: `texture::Texture::from_bytes` lives in `src/texture.rs`,
which is not in the source tree; per spec section 6 the image-decode
collaborator either supplies decoded pixels or fails with
`TextureDecodeFailure`, so the decode outcome is a parameter here (the
decoded pixel data itself is never inspected by lib.rs). -/
inductive DecodeResult where
  | ok
  | fail
deriving DecidableEq

/-- A Rust panic.  `load_texture` calls `.unwrap()` on the decode result
(lib.rs line 768); `Except.error Unwind.unwrapPanic` models the panic: the
call unwinds and never returns a value to the caller. -/
inductive Unwind where
  | unwrapPanic
deriving DecidableEq

/-- `FrugInstance::load_texture`: on a successful decode, build the bind
group, push it onto `diffuse_bind_groups` (modelled by its length) and
return `len - 1`, i.e. the count of previously loaded textures; on a decode
failure the `.unwrap()` panics. -/
def load_texture (s : FrugInstance) (decode : DecodeResult) :
    Except Unwind (FrugInstance × Nat) :=
  match decode with
  | .fail => Except.error Unwind.unwrapPanic
  | .ok =>
      Except.ok ({ s with diffuse_bind_groups := s.diffuse_bind_groups + 1 },
        s.diffuse_bind_groups)

/-- A sequence of `load_texture` calls with the given decode outcomes,
collecting the returned indices; a panic aborts the run. -/
def run_loads (s : FrugInstance) : List DecodeResult →
    Except Unwind (FrugInstance × List Nat)
  | [] => Except.ok (s, [])
  | d :: rest =>
      match load_texture s d with
      | Except.error e => Except.error e
      | Except.ok (s1, i) =>
          match run_loads s1 rest with
          | Except.error e => Except.error e
          | Except.ok (s2, idxs) => Except.ok (s2, i :: idxs)

/-- A color-attachment load operation (`wgpu::LoadOp`). -/
inductive LoadOp where
  | clearTo (c : Color)
  | load
deriving DecidableEq

/-- Which of the two precompiled render pipelines a draw uses. -/
inductive PipelineKind where
  | textures
  | colors
deriving DecidableEq

/-- One `draw_indexed` call together with the pipeline, bind groups and
buffers set on the pass before it (lib.rs lines 495-522).  `texture_bind`
is `some (slot, table_index)` for the textured pipeline; the camera bind
group sits at slot 1 when a texture occupies slot 0, else at slot 0.
`base_vertex` and `instances` are the constant arguments of line 518. -/
structure DrawCall where
  pipeline : PipelineKind
  texture_bind : Option (Nat × Nat)
  camera_bind_slot : Nat
  vertex_buffer : List Vertex
  index_buffer : List Nat
  index_low : Nat
  index_hi : Nat
  base_vertex : Nat
  instances : Nat
deriving DecidableEq

/-- One render pass recorded by the loop body of `render`: its color
attachment's load operation and the single indexed draw it issues. -/
structure RenderPass where
  load_op : LoadOp
  draw : DrawCall
deriving DecidableEq

/-- The pipeline/bind-group/buffer/draw selection of the `render` loop body
for one `DrawableObj` (lib.rs lines 495-522). -/
def drawFor (s : FrugInstance) (o : DrawableObj) : DrawCall :=
  match o.bind_group_idx with
  | some idx =>
      { pipeline := PipelineKind.textures
        texture_bind := some (0, idx)
        camera_bind_slot := 1
        vertex_buffer := s.vertex_buffer
        index_buffer := s.index_buffer
        index_low := o.indices_low_pos
        index_hi := o.indices_hi_pos
        base_vertex := 0
        instances := 1 }
  | none =>
      { pipeline := PipelineKind.colors
        texture_bind := none
        camera_bind_slot := 0
        vertex_buffer := s.vertex_buffer
        index_buffer := s.index_buffer
        index_low := o.indices_low_pos
        index_hi := o.indices_hi_pos
        base_vertex := 0
        instances := 1 }

/-- The `for drawable_obj in &self.drawable_objects` loop of `render`: one
pass per batch, carrying the current load operation, which becomes `Load`
after the first iteration. -/
def renderLoop (s : FrugInstance) : List DrawableObj → LoadOp → List RenderPass
  | [], _ => []
  | o :: rest, op =>
      { load_op := op, draw := drawFor s o } :: renderLoop s rest LoadOp.load

/-- All render passes recorded by one `render` call: the loop starts with
`LoadOp::Clear(background_color)`. -/
def renderPasses (s : FrugInstance) : List RenderPass :=
  renderLoop s s.drawable_objects (LoadOp.clearTo s.background_color)

/-- `wgpu::SurfaceError`, the failure type of `surface.get_current_texture`. -/
inductive SurfaceError where
  | lost
  | outdated
  | outOfMemory
  | timeout
deriving DecidableEq

/-- The command stream submitted to the queue by one `render` call. -/
structure Submission where
  passes : List RenderPass
deriving DecidableEq

/-- Outcome of one `render` call: the instance state after the call
(`&mut self`), the submitted command stream if any, whether `present` ran,
and the `Result` value returned to the caller (`none` = `Ok(())`). -/
structure RenderResult where
  state : FrugInstance
  submitted : Option Submission
  presented : Bool
  result : Option SurfaceError
deriving DecidableEq

/-- `FrugInstance::render`.  `acquire` is the outcome of
`surface.get_current_texture()`: on error the `?` operator returns it at
once, leaving the instance untouched and submitting nothing.  Otherwise the
batch loop records one pass per `DrawableObj` (from the list as it stands at
entry), the batch list is cleared, and the command stream is submitted and
presented. -/
def render (s : FrugInstance) (acquire : Except SurfaceError Unit) :
    RenderResult :=
  match acquire with
  | Except.error e =>
      { state := s, submitted := none, presented := false, result := some e }
  | Except.ok _ =>
      { state := { s with drawable_objects := [] }
        submitted := some { passes := renderPasses s }
        presented := true
        result := none }

/-- The passes of the submitted command stream, if any. -/
def submittedPasses (r : RenderResult) : List RenderPass :=
  match r.submitted with
  | some sub => sub.passes
  | none => []

/-- One call of the three staging `add_*` operations, for stating properties
of arbitrary call sequences. -/
inductive AddOp where
  | coloredRect (x y w h : ℚ) (color : ℚ × ℚ × ℚ)
  | texRect (x y w h : ℚ) (texture_index : Nat) (flip_x flip_y : Bool)
  | coloredVertices (vertices : List Vertex) (indices : List Nat)

/-- Apply one `add_*` call to the instance. -/
def applyOp (s : FrugInstance) : AddOp → FrugInstance
  | .coloredRect x y w h c => add_colored_rect s x y w h c
  | .texRect x y w h t fx fy => add_tex_rect s x y w h t fx fy
  | .coloredVertices vs idx => add_colored_vertices s vs idx

/-- Apply a sequence of `add_*` calls in order. -/
def applyOps (s : FrugInstance) (ops : List AddOp) : FrugInstance :=
  ops.foldl applyOp s

/-- The vertices an `add_*` call hands to `add_staging_indexed_vertices`. -/
def opVertices : AddOp → List Vertex
  | .coloredRect x y w h c => coloredRectVertices x y w h c
  | .texRect x y w h _ fx fy => texRectVertices x y w h fx fy
  | .coloredVertices vs _ => vs

/-- The raw (pre-offset) indices an `add_*` call hands to
`add_staging_indexed_vertices`. -/
def opIndices : AddOp → List Nat
  | .coloredRect _ _ _ _ _ => [0, 1, 3, 1, 2, 3]
  | .texRect _ _ _ _ _ _ _ => [0, 1, 3, 1, 2, 3]
  | .coloredVertices _ idx => idx

/-- Whether each raw index of the call refers to one of the call's own
vertices.  Holds by construction for the two rectangle calls; for
`add_colored_vertices` it is a condition on the caller's data. -/
def opIndicesInRange (op : AddOp) : Bool :=
  (opIndices op).all fun i => decide (i < (opVertices op).length)

/-- Whether every staging index appended by this one call (the entries past
the previous length of `staging_indices`) is strictly below the staging
vertex count right after the call. -/
def stepIndicesValid (s : FrugInstance) (op : AddOp) : Bool :=
  let s1 := applyOp s op
  ((s1.staging_indices.drop s.staging_indices.length).all
    fun i => decide (i < s1.staging_vertices.length))

/-- Replace the U texture coordinate of `a` by that of `b`, keeping
everything else (position, color, V coordinate) of `a`. -/
def takeU (a b : Vertex) : Vertex :=
  { a with text_coords := (b.text_coords.1, a.text_coords.2) }

/-- Replace the V texture coordinate of `a` by that of `b`, keeping
everything else (position, color, U coordinate) of `a`. -/
def takeV (a b : Vertex) : Vertex :=
  { a with text_coords := (a.text_coords.1, b.text_coords.2) }

/-- Exchange the U texture coordinates of a quad's left-edge vertex pair
(entries 0 and 1: top-left, bottom-left) with those of its right-edge pair
(entries 3 and 2: top-right, bottom-right), leaving positions, colors and V
coordinates untouched.  This is the spec's description of `flip_x`. -/
def swapPairsU : List Vertex → List Vertex
  | [v0, v1, v2, v3] => [takeU v0 v3, takeU v1 v2, takeU v2 v1, takeU v3 v0]
  | l => l

/-- Exchange the V texture coordinates of a quad's top-edge vertex pair
(entries 0 and 3) with those of its bottom-edge pair (entries 1 and 2),
leaving positions, colors and U coordinates untouched.  This is the spec's
description of `flip_y`. -/
def swapPairsV : List Vertex → List Vertex
  | [v0, v1, v2, v3] => [takeV v0 v1, takeV v1 v0, takeV v2 v3, takeV v3 v2]
  | l => l

/-- The color `[1, 0, 0]` (red) of the C7 scenario. -/
def red : ℚ × ℚ × ℚ := (1, 0, 0)

/-- The color `[0, 1, 0]` (green) of the C7 scenario. -/
def green : ℚ × ℚ × ℚ := (0, 1, 0)

/-- The C7 scenario state: from a fresh instance, `add_colored_rect(0, 0,
10, 10, red)`, then `add_colored_rect(5, 5, 10, 10, green)`, then
`update_buffers()`. -/
def twoRectState : FrugInstance :=
  update_buffers
    (add_colored_rect (add_colored_rect (new_instance 640 480) 0 0 10 10 red) 5 5 10 10 green)

/-- A reachable instance holding 65536 staged vertices (65536 = 16384
`add_colored_rect` calls' worth), at which the `len() as u16` offset cast of
`add_staging_indexed_vertices` wraps to 0. -/
def bulkVertexInstance : FrugInstance :=
  { new_instance 640 480 with staging_vertices := List.replicate 65536 Vertex.default }

/-! Helper lemmas. -/

lemma applyOp_staging_vertices (s : FrugInstance) (op : AddOp) :
    (applyOp s op).staging_vertices = s.staging_vertices ++ opVertices op := by
  cases op <;> rfl

lemma applyOp_staging_indices (s : FrugInstance) (op : AddOp) :
    (applyOp s op).staging_indices =
      s.staging_indices ++
        (opIndices op).map
          (fun i => (i + s.staging_vertices.length % 65536) % 65536) := by
  cases op <;> rfl

lemma applyOp_vertex_count (s : FrugInstance) (op : AddOp) :
    (applyOp s op).staging_vertices.length =
      s.staging_vertices.length + (opVertices op).length := by
  rw [applyOp_staging_vertices, List.length_append]

lemma stepIndicesValid_of_in_range (s : FrugInstance) (op : AddOp)
    (hwf : opIndicesInRange op = true) :
    stepIndicesValid s op = true := by
  have hwf' : ∀ i ∈ opIndices op, i < (opVertices op).length := by
    intro i hi
    have := (List.all_eq_true.mp hwf) i hi
    exact of_decide_eq_true this
  simp only [stepIndicesValid, applyOp_staging_indices, applyOp_vertex_count,
    List.drop_left, List.all_eq_true, List.mem_map, decide_eq_true_eq]
  rintro j ⟨i, hi, rfl⟩
  have := hwf' i hi
  omega

lemma add_colored_rect_staging_indices (s : FrugInstance) (x y w h : ℚ)
    (c : ℚ × ℚ × ℚ) :
    (add_colored_rect s x y w h c).staging_indices =
      s.staging_indices ++
        [0, 1, 3, 1, 2, 3].map
          (fun i => (i + s.staging_vertices.length % 65536) % 65536) :=
  rfl

lemma renderLoop_map_draw (s : FrugInstance) (objs : List DrawableObj) (op : LoadOp) :
    (renderLoop s objs op).map RenderPass.draw = objs.map (drawFor s) := by
  induction objs generalizing op with
  | nil => rfl
  | cons o rest ih => simp [renderLoop, ih]

lemma renderLoop_map_load (s : FrugInstance) (objs : List DrawableObj) (op : LoadOp) :
    (renderLoop s objs op).map RenderPass.load_op =
      (if objs.length = 0 then []
       else op :: List.replicate (objs.length - 1) LoadOp.load) := by
  induction objs generalizing op with
  | nil => rfl
  | cons o rest ih =>
      simp only [renderLoop, List.map_cons, ih, List.length_cons]
      cases rest <;> simp [List.replicate_succ]

lemma renderLoop_congr_buffers (s t : FrugInstance)
    (hv : t.vertex_buffer = s.vertex_buffer)
    (hi : t.index_buffer = s.index_buffer)
    (objs : List DrawableObj) (op : LoadOp) :
    renderLoop t objs op = renderLoop s objs op := by
  induction objs generalizing op with
  | nil => rfl
  | cons o rest ih =>
      have hd : drawFor t o = drawFor s o := by
        cases h : o.bind_group_idx <;> simp [drawFor, h, hv, hi]
      simp [renderLoop, hd, ih]

/-! Claim theorems. -/

/-- C7: from an empty accumulator, `add_colored_rect(0,0,10,10,red)` then
`add_colored_rect(5,5,10,10,green)` then `update_buffers()` leaves the
staging vertex count at 8 and the staging index count at 12, records
`num_indices = 12`, and records exactly the two draw batches with index
ranges `[0, 6)` and `[6, 12)`, both without a bind group. -/
theorem two_rects_update_buffers_scenario :
    twoRectState.staging_vertices.length = 8 ∧
    twoRectState.staging_indices.length = 12 ∧
    twoRectState.num_indices = 12 ∧
    twoRectState.drawable_objects =
      [{ indices_low_pos := 0, indices_hi_pos := 6, bind_group_idx := none },
       { indices_low_pos := 6, indices_hi_pos := 12, bind_group_idx := none }] := by
  decide

/-- C8: when either dimension of the new size is zero, `resize` is a no-op:
the instance (its stored size and every field of the surface configuration)
is returned unchanged and `surface.configure` is not invoked. -/
theorem resize_zero_dimension_noop (s : FrugInstance) (new_w new_h : Nat)
    (hz : new_w = 0 ∨ new_h = 0) :
    resize s new_w new_h = (s, false) := by
  rcases hz with hz | hz <;> subst hz <;> simp [resize]

/-- Witness for C8: `resize` with width 0 and height 5 on a fresh instance
leaves it unchanged and does not reconfigure the surface. -/
theorem resize_zero_dimension_noop_witness :
    ((0 : Nat) = 0 ∨ (5 : Nat) = 0) ∧
      resize (new_instance 640 480) 0 5 = (new_instance 640 480, false) :=
  ⟨Or.inl rfl, resize_zero_dimension_noop (new_instance 640 480) 0 5 (Or.inl rfl)⟩

/-- C9: when `surface.get_current_texture` fails, the `?` operator returns
the error at once: the instance state is unchanged (in particular the batch
list is not cleared and the staging lists are untouched), no command stream
is submitted and nothing is presented; the batch list is emptied only on the
successful path. -/
theorem render_surface_error_preserves_state (s : FrugInstance) (e : SurfaceError) :
    render s (Except.error e) =
      { state := s, submitted := none, presented := false, result := some e } ∧
    (render s (Except.ok ())).state.drawable_objects = [] :=
  ⟨rfl, rfl⟩

/-- C10: `clear` empties the two staging lists and touches nothing else: the
batch list, recorded index count, background color and the uploaded GPU
buffers are preserved, and the render passes the next `render` call would
record are unchanged. -/
theorem clear_touches_only_staging (s : FrugInstance) :
    (clear s).staging_vertices = [] ∧
    (clear s).staging_indices = [] ∧
    (clear s).drawable_objects = s.drawable_objects ∧
    (clear s).num_indices = s.num_indices ∧
    (clear s).background_color = s.background_color ∧
    (clear s).vertex_buffer = s.vertex_buffer ∧
    (clear s).index_buffer = s.index_buffer ∧
    renderPasses (clear s) = renderPasses s :=
  ⟨rfl, rfl, rfl, rfl, rfl, rfl, rfl,
    renderLoop_congr_buffers s (clear s) rfl rfl s.drawable_objects _⟩

/-- C2 counterexample: with an empty batch list the `for` loop body of
`render` never runs, so no render pass at all is recorded — not the single
clear-only pass the claim describes.  (Consequently the frame target is
never cleared to the background color.) -/
theorem render_empty_batches_single_pass_cex :
    ¬ ∃ p : RenderPass,
        submittedPasses (render (new_instance 640 480) (Except.ok ())) = [p] := by
  simp [render, submittedPasses, renderPasses, new_instance, renderLoop]

/-- C2 amended: when `render` runs with an empty batch list, it records no
render pass and issues no draw call; it still submits the (pass-free)
command stream and presents, leaving the batch list empty, and returns
`Ok`.  The color attachment is never cleared, so the presented image is not
the background color but whatever the acquired surface texture held. -/
theorem render_empty_batches_submits_no_passes (s : FrugInstance)
    (hempty : s.drawable_objects = []) :
    render s (Except.ok ()) =
      { state := s, submitted := some { passes := [] }, presented := true,
        result := none } := by
  cases s
  simp_all [render, renderPasses, renderLoop]

/-- Witness for C2's amended theorem: a fresh instance has no batches, and
rendering it submits a command stream with zero passes. -/
theorem render_empty_batches_submits_no_passes_witness :
    (new_instance 640 480).drawable_objects = [] ∧
      render (new_instance 640 480) (Except.ok ()) =
        { state := new_instance 640 480, submitted := some { passes := [] },
          presented := true, result := none } :=
  ⟨rfl, render_empty_batches_submits_no_passes (new_instance 640 480) rfl⟩

/-- C3: a frame with `n + 1` accumulated batches records exactly `n + 1`
render passes, each issuing one indexed draw; the draws follow the batches
in recorded order (pipeline, bind groups, buffers and index range selected
per batch by `drawFor`), the first pass's color attachment loads with
`Clear(background_color)` and each of the remaining `n` passes loads with
`Load`. -/
theorem render_pass_sequence (s : FrugInstance) (n : Nat)
    (hn : s.drawable_objects.length = n + 1) :
    (renderPasses s).length = n + 1 ∧
    (renderPasses s).map RenderPass.draw = s.drawable_objects.map (drawFor s) ∧
    (renderPasses s).map RenderPass.load_op =
      LoadOp.clearTo s.background_color :: List.replicate n LoadOp.load := by
  have hdraw := renderLoop_map_draw s s.drawable_objects
    (LoadOp.clearTo s.background_color)
  have hload := renderLoop_map_load s s.drawable_objects
    (LoadOp.clearTo s.background_color)
  have hlen : (renderPasses s).length = s.drawable_objects.length := by
    have := congrArg List.length hdraw
    simpa [renderPasses] using this
  refine ⟨by rw [hlen, hn], hdraw, ?_⟩
  rw [renderPasses, hload, hn]
  simp

/-- Witness for C3: one colored rectangle accumulated on a fresh instance
yields exactly one pass, drawing that batch, with a clear load operation. -/
theorem render_pass_sequence_witness :
    ((add_colored_rect (new_instance 640 480) 0 0 1 1 red).drawable_objects.length
        = 0 + 1) ∧
    ((renderPasses (add_colored_rect (new_instance 640 480) 0 0 1 1 red)).length
        = 0 + 1 ∧
      (renderPasses (add_colored_rect (new_instance 640 480) 0 0 1 1 red)).map
          RenderPass.draw =
        (add_colored_rect (new_instance 640 480) 0 0 1 1 red).drawable_objects.map
          (drawFor (add_colored_rect (new_instance 640 480) 0 0 1 1 red)) ∧
      (renderPasses (add_colored_rect (new_instance 640 480) 0 0 1 1 red)).map
          RenderPass.load_op =
        LoadOp.clearTo
            (add_colored_rect (new_instance 640 480) 0 0 1 1 red).background_color ::
          List.replicate 0 LoadOp.load) :=
  ⟨by decide,
    render_pass_sequence (add_colored_rect (new_instance 640 480) 0 0 1 1 red) 0
      (by decide)⟩

/-- C6: `add_tex_rect` with `flip_x = true` stages the same four vertices as
the unflipped call except that the U texture coordinates of the left-edge
vertex pair and the right-edge vertex pair are exchanged (the constants 0
and 1 swap); `flip_y = true` likewise exchanges the V coordinates of the
top and bottom vertex pairs.  Positions, colors and the other texture
coordinate are untouched, for every position, size and texture index. -/
theorem add_tex_rect_flip_swaps_uv (s : FrugInstance) (x y w h : ℚ)
    (texture_index : Nat) (fx fy : Bool) :
    (add_tex_rect s x y w h texture_index true fy).staging_vertices =
      s.staging_vertices ++ swapPairsU (texRectVertices x y w h false fy) ∧
    (add_tex_rect s x y w h texture_index fx true).staging_vertices =
      s.staging_vertices ++ swapPairsV (texRectVertices x y w h fx false) := by
  constructor
  · have hU : swapPairsU (texRectVertices x y w h false fy) =
        texRectVertices x y w h true fy := by
      cases fy <;> rfl
    rw [hU]; rfl
  · have hV : swapPairsV (texRectVertices x y w h fx false) =
        texRectVertices x y w h fx true := by
      cases fx <;> rfl
    rw [hV]; rfl

/-- C1 counterexample: the claim fails for `add_colored_vertices` when the
caller-supplied indices do not reference the caller's own vertices: the
one-call sequence `add_colored_vertices(vertices = [], indices = [0])` on a
fresh instance appends the staging index 0 while the staging vertex count
after the call is 0, so the appended index is not below the vertex count. -/
theorem staged_index_out_of_range_cex :
    stepIndicesValid (applyOps (new_instance 640 480) [])
      (AddOp.coloredVertices [] [0]) = false := by
  decide

/-- C1 amended: for every sequence of `add_colored_rect` / `add_tex_rect` /
`add_colored_vertices` calls on a fresh instance in which every
`add_colored_vertices` call's indices reference that call's own vertices
(the two rectangle calls satisfy this by construction, their raw indices
being `[0,1,3,1,2,3]` over 4 vertices), every index appended to the staging
index list by a call is strictly below the staging vertex count immediately
after that call.  No bound on the accumulated vertex count is needed: the
`u16` offset cast can only shrink an appended index. -/
theorem staged_indices_reference_valid_vertices (w h : Nat)
    (ops pre post : List AddOp) (op : AddOp)
    (hsplit : ops = pre ++ op :: post)
    (hwf : ∀ o ∈ ops, opIndicesInRange o = true) :
    stepIndicesValid (applyOps (new_instance w h) pre) op = true := by
  subst hsplit
  exact stepIndicesValid_of_in_range _ _ (hwf op (by simp))

/-- Witness for C1's amended theorem: the two-call sequence of a textured
rectangle followed by a colored rectangle is well formed, and the second
call's appended indices all reference valid staged vertices. -/
theorem staged_indices_reference_valid_vertices_witness :
    ([AddOp.texRect 0 0 1 1 0 false false, AddOp.coloredRect 2 2 1 1 red] =
        [AddOp.texRect 0 0 1 1 0 false false] ++
          AddOp.coloredRect 2 2 1 1 red :: []) ∧
    (∀ o ∈ [AddOp.texRect 0 0 1 1 0 false false, AddOp.coloredRect 2 2 1 1 red],
        opIndicesInRange o = true) ∧
    stepIndicesValid
        (applyOps (new_instance 640 480) [AddOp.texRect 0 0 1 1 0 false false])
        (AddOp.coloredRect 2 2 1 1 red) = true :=
  ⟨rfl, by decide,
    staged_indices_reference_valid_vertices 640 480
      [AddOp.texRect 0 0 1 1 0 false false, AddOp.coloredRect 2 2 1 1 red]
      [AddOp.texRect 0 0 1 1 0 false false] [] (AddOp.coloredRect 2 2 1 1 red)
      rfl (by decide)⟩

/-- C4 counterexample: a decode failure is not returned to the caller as a
failed `load_texture` call — `load_texture` returns a plain `usize` and
calls `.unwrap()` on the decode result, so the failing call panics and never
returns any value to the caller. -/
theorem load_texture_decode_failure_cex :
    load_texture (new_instance 640 480) DecodeResult.fail =
      Except.error Unwind.unwrapPanic ∧
    ¬ ∃ r : FrugInstance × Nat,
        load_texture (new_instance 640 480) DecodeResult.fail = Except.ok r := by
  refine ⟨rfl, ?_⟩
  rintro ⟨r, hr⟩
  simp [load_texture] at hr

/-- C4 amended: every successful `load_texture` call returns the number of
previously loaded textures, so from any starting instance a run of `n`
successful calls returns the consecutive indices
`diffuse_bind_groups, diffuse_bind_groups + 1, …` (hence `0, 1, 2, …` from a
fresh instance) and grows the table by `n`; a decode failure makes the call
panic on its `.unwrap()`, so it does not return an index to the caller and
allocates no table entry. -/
theorem load_texture_index_sequence (s : FrugInstance) (n : Nat) :
    run_loads s (List.replicate n DecodeResult.ok) =
      Except.ok
        ({ s with diffuse_bind_groups := s.diffuse_bind_groups + n },
          List.range' s.diffuse_bind_groups n) ∧
    load_texture s DecodeResult.fail = Except.error Unwind.unwrapPanic := by
  refine ⟨?_, rfl⟩
  induction n generalizing s with
  | zero => rfl
  | succ m ih =>
      simp only [List.replicate_succ, run_loads, load_texture, ih, List.range']
      have hadd : s.diffuse_bind_groups + 1 + m = s.diffuse_bind_groups + (m + 1) := by
        omega
      rw [hadd]

/-- C5 counterexample: at an instance holding 65536 staged vertices (a count
reachable by 16384 `add_colored_rect` calls), the `len() as u16` offset cast
wraps to 0, so `add_colored_rect` appends the indices `[0, 1, 3, 1, 2, 3]`
rather than the claimed indices offset by the prior vertex count 65536. -/
theorem add_colored_rect_offset_wrap_cex :
    (add_colored_rect bulkVertexInstance 0 0 1 1 red).staging_indices ≠
      bulkVertexInstance.staging_indices ++
        [0, 1, 3, 1, 2, 3].map
          (fun i => i + bulkVertexInstance.staging_vertices.length) := by
  intro hcontra
  have hlen : bulkVertexInstance.staging_vertices.length = 65536 := by
    show (List.replicate 65536 Vertex.default).length = 65536
    rw [List.length_replicate]
  have hidx : bulkVertexInstance.staging_indices = [] := rfl
  rw [add_colored_rect_staging_indices, hidx, hlen] at hcontra
  simp only [List.nil_append, List.map_cons, List.map_nil, List.cons.injEq]
    at hcontra
  omega

/-- C5 amended: while the staging vertex count stays within the `u16` index
space (at most 65532 staged vertices before the call), `add_colored_rect`
emits exactly the four vertices top-left, bottom-left, bottom-right,
top-right — origin `(x, y)` with the height extending downward to `y - h` —
all with the given color, appends the six indices `[0, 1, 3, 1, 2, 3]`
offset by the prior staging vertex count, and records exactly one additional
draw batch carrying no bind-group reference.  (Past that bound the `u16`
cast wraps the offset, as the counterexample shows.) -/
theorem add_colored_rect_emits_quad (s : FrugInstance) (x y w h : ℚ)
    (c : ℚ × ℚ × ℚ) (hcap : s.staging_vertices.length + 4 ≤ 65536) :
    (add_colored_rect s x y w h c).staging_vertices =
      s.staging_vertices ++
        [ { position := (x, y, 0), text_coords := (0, 0), color := c },
          { position := (x, y - h, 0), text_coords := (0, 0), color := c },
          { position := (x + w, y - h, 0), text_coords := (0, 0), color := c },
          { position := (x + w, y, 0), text_coords := (0, 0), color := c } ] ∧
    (add_colored_rect s x y w h c).staging_indices =
      s.staging_indices ++
        [0, 1, 3, 1, 2, 3].map (fun i => i + s.staging_vertices.length) ∧
    ∃ d : DrawableObj,
      (add_colored_rect s x y w h c).drawable_objects =
        s.drawable_objects ++ [d] ∧ d.bind_group_idx = none := by
  refine ⟨rfl, ?_, ?_⟩
  · have hmod : s.staging_vertices.length % 65536 = s.staging_vertices.length :=
      Nat.mod_eq_of_lt (by omega)
    simp only [add_colored_rect, add_staging_indexed_vertices, hmod,
      List.map_cons, List.map_nil]
    have hsmall : ∀ i : Nat, i ≤ 3 →
        (i + s.staging_vertices.length) % 65536 = i + s.staging_vertices.length := by
      intro i hi
      exact Nat.mod_eq_of_lt (by omega)
    rw [hsmall 0 (by omega), hsmall 1 (by omega), hsmall 3 (by omega),
      hsmall 2 (by omega)]
  · exact ⟨_, rfl, rfl⟩

/-- Witness for C5's amended theorem: on a fresh instance (0 staged
vertices) `add_colored_rect(0, 0, 1, 1, red)` stages the four corner
vertices in order, the indices `[0, 1, 3, 1, 2, 3]`, and one batch with no
bind group. -/
theorem add_colored_rect_emits_quad_witness :
    ((new_instance 640 480).staging_vertices.length + 4 ≤ 65536) ∧
    ((add_colored_rect (new_instance 640 480) 0 0 1 1 red).staging_vertices =
        (new_instance 640 480).staging_vertices ++
          [ { position := (0, 0, 0), text_coords := (0, 0), color := red },
            { position := (0, 0 - 1, 0), text_coords := (0, 0), color := red },
            { position := (0 + 1, 0 - 1, 0), text_coords := (0, 0), color := red },
            { position := (0 + 1, 0, 0), text_coords := (0, 0), color := red } ] ∧
      (add_colored_rect (new_instance 640 480) 0 0 1 1 red).staging_indices =
        (new_instance 640 480).staging_indices ++
          [0, 1, 3, 1, 2, 3].map
            (fun i => i + (new_instance 640 480).staging_vertices.length) ∧
      ∃ d : DrawableObj,
        (add_colored_rect (new_instance 640 480) 0 0 1 1 red).drawable_objects =
          (new_instance 640 480).drawable_objects ++ [d] ∧
          d.bind_group_idx = none) :=
  ⟨by decide, add_colored_rect_emits_quad (new_instance 640 480) 0 0 1 1 red
    (by decide)⟩

end Frug
